import Mathlib

/-!
Verification of the knowledge-base core of the `goawaygeek_bot` repository.

The Python modules `knowledge/models.py`, `knowledge/store.py`,
`knowledge/brain.py`, `knowledge/fetcher.py` and `knowledge/prompt_manager.py`
are shallowly embedded below.  Pure functions become Lean functions; the
SQLite store is modelled as the list of its rows in insertion (rowid) order;
the network (LLM backend, URL fetches, git subprocesses) is modelled as an
explicit environment record supplied to each operation.
-/

namespace GoawaygeekBot

/-! ### Character and string helpers

Python string operations used by the embedded code: `str.lower`, substring
containment (`in`), and character classification.  Everything is defined
over `List Char` by structural recursion so that all proofs can evaluate
definitions by `decide` or `rfl`.
-/

/-- The apostrophe character (U+0027). -/
def apoChar : Char := Char.ofNat 39

/-- Lowercasing of a string, character by character (Python `str.lower`
restricted to ASCII, which covers every string the embedded code compares). -/
def lowerStr (s : String) : String := String.mk (s.data.map Char.toLower)

/-- Boolean list-equality-prefix test: `startsWith pat l` holds when `pat`
is an initial segment of `l`. -/
def startsWith : List Char → List Char → Bool
  | [], _ => true
  | _ :: _, [] => false
  | p :: ps, c :: cs => p == c && startsWith ps cs

/-- Case-insensitive variant of `startsWith`: the pattern is given already
lowercased and each candidate character is lowercased before comparison. -/
def startsWithCI : List Char → List Char → Bool
  | [], _ => true
  | _ :: _, [] => false
  | p :: ps, c :: cs => p == c.toLower && startsWithCI ps cs

/-- Python `str.strip()`: drop whitespace from both ends. -/
def pyStrip (s : String) : String :=
  String.mk (((s.data.dropWhile Char.isWhitespace).reverse.dropWhile
    Char.isWhitespace).reverse)

/-- Python `needle in hay` for strings, over the underlying character lists. -/
def containsSub : List Char → List Char → Bool
  | hay, needle =>
    startsWith needle hay ||
      match hay with
      | [] => false
      | _ :: t => containsSub t needle

/-! ### `knowledge/models.py` -/

/-- `ItemType` (models.py lines 13-21): classification of a knowledge item. -/
inductive ItemType where
  | note
  | idea
  | task
  | reference
  | link
  | journal
deriving DecidableEq, Repr

/-- The `.value` of each enum member (models.py lines 16-21). -/
def ItemType.value : ItemType → String
  | .note => "note"
  | .idea => "idea"
  | .task => "task"
  | .reference => "reference"
  | .link => "link"
  | .journal => "journal"

/-- Python `ItemType(s)`: look the string up among the enum values, `none`
models the `ValueError` raised when no member has that value. -/
def itemTypeOfValue (s : String) : Option ItemType :=
  if s = "note" then some .note
  else if s = "idea" then some .idea
  else if s = "task" then some .task
  else if s = "reference" then some .reference
  else if s = "link" then some .link
  else if s = "journal" then some .journal
  else none

/-- `KnowledgeItem` (models.py lines 24-35).  `created_at` is a timezone-aware
UTC `datetime`; its `isoformat` string compares lexicographically exactly as
the underlying instant compares chronologically, so the timestamp is modelled
directly as a `Nat` and serialisation of it as the identity. -/
structure KnowledgeItem where
  content : String
  item_type : ItemType
  tags : List String := []
  summary : String := ""
  source_url : Option String := none
  url_content : Option String := none
  created_at : Nat := 0
  item_id : Option Nat := none
deriving DecidableEq, Repr

/-- The dictionary produced by `KnowledgeItem.to_dict` (models.py lines 37-48):
one key per field, with `item_type` replaced by its string value and
`created_at` by its (here: identity-modelled) ISO serialisation. -/
structure ItemDict where
  content : String
  item_type : String
  tags : List String
  summary : String
  source_url : Option String
  url_content : Option String
  created_at : Nat
  item_id : Option Nat
deriving DecidableEq, Repr

/-- `KnowledgeItem.to_dict` (models.py lines 37-48). -/
def KnowledgeItem.to_dict (i : KnowledgeItem) : ItemDict :=
  { content := i.content
    item_type := i.item_type.value
    tags := i.tags
    summary := i.summary
    source_url := i.source_url
    url_content := i.url_content
    created_at := i.created_at
    item_id := i.item_id }

/-- `KnowledgeItem.from_dict` (models.py lines 50-62).  `none` models the
`ValueError` the `ItemType(...)` constructor raises on an unknown value. -/
def KnowledgeItem.from_dict (d : ItemDict) : Option KnowledgeItem :=
  match itemTypeOfValue d.item_type with
  | none => none
  | some t =>
    some { content := d.content
           item_type := t
           tags := d.tags
           summary := d.summary
           source_url := d.source_url
           url_content := d.url_content
           created_at := d.created_at
           item_id := d.item_id }

/-- `AnalysisResult` (models.py lines 65-73): the parsed structured output of
a capture-analysis model call.  Note the dataclass defines exactly these five
fields and in particular has no `capability_request` and no `extracted_items`
attribute. -/
structure AnalysisResult where
  item_type : ItemType
  tags : List String
  summary : String
  response : String
  overview_update : Option String := none
deriving DecidableEq, Repr

/-- One entry of the `extracted_items` list a model response may carry
(brain.py lines 198-203 reads it with `raw.get("summary", "")` and
`raw.get("tags", [])`, so both fields default when the key is absent). -/
structure ExtractedRaw where
  summary : String := ""
  tags : List String := []
deriving DecidableEq, Repr

/-- The JSON object decoded from the raw model output by
`AnalysisResult.from_llm_json` (models.py line 97, `json.loads`).  Each
`Option` field models presence or absence of the key in the decoded dict.
`capability_request` and `extracted_items` keys may well be present in the
JSON (the repository test fixtures include them) — the parser below simply
never reads them. -/
structure LlmDict where
  item_type : Option String := none
  tags : Option (List String) := none
  summary : Option String := none
  response : Option String := none
  overview_update : Option String := none
  capability_request : Option Bool := none
  extracted_items : Option (List ExtractedRaw) := none
deriving DecidableEq, Repr

/-- `AnalysisResult.from_llm_json` (models.py lines 75-120), starting from the
already-decoded JSON object (fence stripping and `json.loads` on the raw
string are the decoding step, modelled at the environment level: a raw output
either decodes to an `LlmDict` or fails, which the caller treats the same way
as any other `ValueError` from this function).  The `.error` results model the
`ValueError`s raised for missing required fields or an invalid item type. -/
def fromLlmJson (d : LlmDict) : Except String AnalysisResult :=
  match d.item_type, d.tags, d.summary, d.response with
  | some it, some tags, some summ, some resp =>
    match itemTypeOfValue it with
    | none => .error "Invalid item_type"
    | some t =>
      .ok { item_type := t
            tags := tags
            summary := summ
            response := resp
            overview_update := d.overview_update }
  | _, _, _, _ => .error "LLM JSON missing required fields"

/-! ### `knowledge/fetcher.py` — URL detection

`URL_PATTERN = https?://[^\s<>"\x27)\x5d]+` with `re.IGNORECASE`;
`extract_urls` is `URL_PATTERN.findall`, i.e. the non-overlapping,
left-to-right, greedy matches of that pattern.
-/

/-- A character admitted by the character class `[^\s<>"\x27)\x5d]` of
`URL_PATTERN` (fetcher.py lines 12-15): anything but whitespace, `<`, `>`,
the double quote, the apostrophe, `)` and `]`. -/
def isUrlChar (c : Char) : Bool :=
  !(c.isWhitespace || c == '<' || c == '>' || c == '"' || c == apoChar ||
    c == ')' || c == ']')

/-- One left-to-right scan of `re.findall` for `URL_PATTERN`: at each
position try to match `https?://` case-insensitively (greedy, so `https` is
preferred over `http`) followed by at least one `isUrlChar` character taken
greedily; on a match emit it and resume after it, otherwise advance one
character.  The fuel argument bounds the recursion by the input length
(every recursive call receives a strictly shorter list). -/
def extractUrlsAux : Nat → List Char → List (List Char)
  | 0, _ => []
  | _, [] => []
  | fuel + 1, l@(_ :: rest) =>
    let scheme : Option Nat :=
      if startsWithCI "https://".data l then some 8
      else if startsWithCI "http://".data l then some 7
      else none
    match scheme with
    | some n =>
      let afterScheme := l.drop n
      let body := afterScheme.takeWhile isUrlChar
      if body.isEmpty then extractUrlsAux fuel rest
      else (l.take n ++ body) :: extractUrlsAux fuel (afterScheme.drop body.length)
    | none => extractUrlsAux fuel rest

/-- `extract_urls` (fetcher.py lines 21-23). -/
def extractUrls (s : String) : List String :=
  (extractUrlsAux s.data.length s.data).map String.mk

/-! ### `knowledge/store.py` — SQLite + FTS5 store

The store is modelled by the list of its `items` rows in rowid (insertion)
order.  `save_item` appends a row and assigns `item_id`; the FTS5 index over
the `content`, `summary` and `tags` columns is kept in sync by triggers, so
searching is modelled directly over the rows.

FTS5 semantics used by `search` (store.py lines 152-178), per the SQLite
documentation for the default `unicode61` tokenizer and query syntax, for
the fragment of query strings the theorems below exercise (plain words and
punctuation, no quoted phrases or explicit operators):
  * text is tokenized into maximal runs of alphanumeric characters,
    case-folded (no stemming: `grants` and `grant` are distinct tokens);
  * a query consisting of whitespace-separated bare words denotes the
    implicit AND of its terms;
  * any other character in a bare-word query (for example `?`) is an FTS5
    query syntax error, which surfaces as `sqlite3.OperationalError`.
-/

/-- Token character of the `unicode61` tokenizer, restricted to ASCII (all
strings exercised below are ASCII): letters and digits. -/
def isTokenChar (c : Char) : Bool := c.isAlphanum

/-- Split a character list into its maximal runs of token characters,
case-folded.  Fuel bounds the recursion by the input length. -/
def ftsTokensAux : Nat → List Char → List (List Char)
  | 0, _ => []
  | _, [] => []
  | fuel + 1, c :: rest =>
    if isTokenChar c then
      ((c :: rest.takeWhile isTokenChar).map Char.toLower) ::
        ftsTokensAux fuel (rest.dropWhile isTokenChar)
    else ftsTokensAux fuel rest

/-- FTS5 tokenization of a string. -/
def ftsTokens (s : String) : List String :=
  (ftsTokensAux s.data.length s.data).map String.mk

/-- The tokens indexed for one row: the `content`, `summary` and `tags`
columns (store.py lines 79-82; the `tags` column holds `json.dumps(tags)`,
whose brackets, quotes and commas are token separators, so its tokens are
the tokens of the individual tags). -/
def docTokens (i : KnowledgeItem) : List String :=
  ftsTokens i.content ++ ftsTokens i.summary ++ (i.tags.map ftsTokens).flatten

/-- FTS5 parsing of the raw query string `search` hands to `MATCH`
(store.py line 164 passes the user query through unchanged).  Within the
bare-word fragment: every character must be a token character or whitespace,
otherwise the query is a syntax error (`.error`); on success the query
denotes the implicit AND of its tokens. -/
def parseFtsQuery (s : String) : Except Unit (List String) :=
  if s.data.all (fun c => isTokenChar c || c.isWhitespace) then
    .ok (ftsTokens s)
  else
    .error ()

/-- A row matches an implicit-AND term list when every term occurs among its
indexed tokens. -/
def ftsMatch (terms : List String) (i : KnowledgeItem) : Bool :=
  terms.all (fun t => (docTokens i).contains t)

/-- `SQLiteStore.search` (store.py lines 152-178) in terms of which rows it
returns: parse the query (an `sqlite3.OperationalError` is caught and
yields `[]`, lines 166-168), keep the matching rows, return at most
`limit` of them.  The source orders matches by `bm25` rank before applying
`LIMIT`; every theorem below evaluates to at most zero matching rows, so the
rank order never influences a stated result and matches are kept in row
order here. -/
def search (rows : List KnowledgeItem) (query : String) (limit : Nat) :
    List KnowledgeItem :=
  match parseFtsQuery query with
  | .error _ => []
  | .ok terms => (rows.filter (ftsMatch terms)).take limit

/-- `SQLiteStore.save_item` (store.py lines 120-141): append the row and
assign the next rowid as its `item_id`. -/
def saveItem (rows : List KnowledgeItem) (i : KnowledgeItem) :
    List KnowledgeItem :=
  rows ++ [{ i with item_id := some (rows.length + 1) }]

/-- Rows ordered newest first, weakly: the first row is at least as recent
as the second (`created_at` is stored as a UTC `isoformat` string, whose
lexicographic order is the chronological order of the instant). -/
def newestFirst (a b : KnowledgeItem) : Prop :=
  b.created_at ≤ a.created_at

instance (a b : KnowledgeItem) : Decidable (newestFirst a b) :=
  inferInstanceAs (Decidable (b.created_at ≤ a.created_at))

/-- Rows ordered newest first, strictly. -/
def strictNewestFirst (a b : KnowledgeItem) : Prop :=
  b.created_at < a.created_at

instance (a b : KnowledgeItem) : Decidable (strictNewestFirst a b) :=
  inferInstanceAs (Decidable (b.created_at < a.created_at))

/-- `SQLiteStore.recent` (store.py lines 180-186):
`SELECT * FROM items ORDER BY created_at DESC LIMIT ?`.

SQLite guarantees only that the returned rows are some arrangement of the
stored rows that is weakly sorted by the `ORDER BY` key, truncated to
`limit`; the relative order of rows with equal `created_at` is documented
as unspecified (there is no index on `created_at` and no secondary sort
key in the query).  `recent` is therefore embedded as a relation between
the store and its possible outputs rather than as a function:
`recentResult limit rows out` holds exactly when `out` is an output the
query may produce. -/
def recentResult (limit : Nat) (rows out : List KnowledgeItem) : Prop :=
  ∃ sorted : List KnowledgeItem,
    rows.Perm sorted ∧
    sorted.Pairwise newestFirst ∧
    out = sorted.take limit

/-! ### `knowledge/brain.py` — the orchestrator -/

/-- The apostrophe as a one-character string, used to spell the contraction
phrases of the signal list. -/
def apoStr : String := String.mk [apoChar]

/-- `_INSUFFICIENT_CAPABILITY_SIGNALS` (brain.py lines 36-52): phrases in an
answer that suggest the bot lacks the capability to respond. -/
def insufficientCapabilitySignals : List String :=
  [ "i don" ++ apoStr ++ "t have"
  , "i do not have"
  , "no information"
  , "not stored"
  , "can" ++ apoStr ++ "t find"
  , "cannot find"
  , "no data"
  , "not tracked"
  , "don" ++ apoStr ++ "t track"
  , "do not track"
  , "no record"
  , "haven" ++ apoStr ++ "t stored"
  , "have not stored"
  , "isn" ++ apoStr ++ "t tracked"
  , "is not tracked" ]

/-- `KnowledgeBrain._signals_insufficient_capability` (brain.py lines
333-336): `any(signal in answer.lower() for signal in ...)`. -/
def signalsInsufficientCapability (answer : String) : Bool :=
  insufficientCapabilitySignals.any
    (fun signal => containsSub (lowerStr answer).data signal.data)

/-- Python `list(dict.fromkeys(l))`: deduplicate keeping the first
occurrence of each element, preserving first-seen order.  The accumulator
carries the keys already emitted. -/
def dedupAux : List String → List String → List String
  | _, [] => []
  | seen, x :: xs =>
    if x ∈ seen then dedupAux seen xs
    else x :: dedupAux (x :: seen) xs

/-- `list(dict.fromkeys(l))` (brain.py line 203). -/
def dedupFirst (l : List String) : List String := dedupAux [] l

/-- `KnowledgeBrain._save_extracted_items` (brain.py lines 191-211), as the
list of items it saves, in order: entries whose `summary` is empty are
skipped; every saved item is a `reference` carrying the merged, deduplicated
tags and the parent `source_url`.  `now` is the construction instant the
`KnowledgeItem` default assigns to `created_at`. -/
def saveExtractedItems (extracted : List ExtractedRaw)
    (sourceUrl : Option String) (parentTags : List String) (now : Nat) :
    List KnowledgeItem :=
  match extracted with
  | [] => []
  | raw :: rest =>
    if raw.summary = "" then saveExtractedItems rest sourceUrl parentTags now
    else
      { content := raw.summary
        item_type := ItemType.reference
        tags := dedupFirst (parentTags ++ raw.tags)
        summary := raw.summary
        source_url := sourceUrl
        url_content := none
        created_at := now
        item_id := none } :: saveExtractedItems rest sourceUrl parentTags now

/-- Outcome of the model-gateway `analyze` call followed by the raw-string
JSON decoding inside `AnalysisResult.from_llm_json`:
either the call raised, or the raw text failed to decode as JSON, or it
decoded to the given object (whose field-level validation `fromLlmJson`
performs). -/
inductive LlmOutcome where
  | raised
  | badJson
  | dict (d : LlmDict)

/-- Environment of one `capture` invocation: the URL fetcher
(`fetch_url_content`, `none` models a fetch failure) and the model gateway
(the system prompt, rendered from the overview, is part of the environment
behind `llm`). -/
structure CaptureEnv where
  fetch : String → Option String
  llm : String → LlmOutcome

/-- The user message built by `capture` (brain.py lines 128-131): the raw
text, with a delimited fetched-content section appended when a fetch
succeeded. -/
def captureUserMessage (env : CaptureEnv) (text : String) : String :=
  let urls := extractUrls text
  let urlContent :=
    match urls with
    | [] => none
    | u :: _ => env.fetch u
  match urlContent with
  | some c => text ++ "\n\n--- Fetched URL Content ---\n" ++ c
  | none => text

/-- Steps 4-5 of `capture` (brain.py lines 133-137): call `analyze` and
parse its output; `.error` is the caught exception of either step. -/
def captureAnalysis (env : CaptureEnv) (text : String) :
    Except Unit AnalysisResult :=
  match env.llm (captureUserMessage env text) with
  | .raised => .error ()
  | .badJson => .error ()
  | .dict d =>
    match fromLlmJson d with
    | .error _ => .error ()
    | .ok a => .ok a

/-- How one `capture` invocation ends: with the returned
`(reply, capability_request)` pair, or with an uncaught `AttributeError`
naming the attribute whose access raised. -/
inductive CaptureStep where
  | reply (text : String) (capabilityRequest : Bool)
  | attributeError (attr : String)
deriving DecidableEq, Repr

/-- `KnowledgeBrain.capture` (brain.py lines 104-177) together with
`_fallback_save` (lines 179-189), over a store modelled as its row list.

On an analysis failure the original text is saved as a bare note and the
literal confirmation is returned (lines 138-140, 179-189).  On success the
parsed item is saved (lines 153-162); the next statement,
`if analysis.extracted_items:` (line 165), accesses an attribute the
`AnalysisResult` dataclass does not define, so an `AttributeError`
propagates out of `capture` (it is outside the `try` of lines 135-140);
lines 166-177, including the `analysis.capability_request` in the return
expression — likewise an undefined attribute — are never reached. -/
def capture (env : CaptureEnv) (now : Nat) (text : String)
    (rows : List KnowledgeItem) : CaptureStep × List KnowledgeItem :=
  let urls := extractUrls text
  let urlContent :=
    match urls with
    | [] => none
    | u :: _ => env.fetch u
  match captureAnalysis env text with
  | .error _ =>
    (.reply "Saved to knowledge base." false,
     saveItem rows
       { content := text
         item_type := ItemType.note
         tags := []
         summary := ""
         source_url := urls.head?
         url_content := none
         created_at := now
         item_id := none })
  | .ok analysis =>
    (.attributeError "extracted_items",
     saveItem rows
       { content := text
         item_type := analysis.item_type
         tags := analysis.tags
         summary := analysis.summary
         source_url := urls.head?
         url_content := urlContent
         created_at := now
         item_id := none })

/-- The structured gap-analysis response: `json.loads` of the raw model
output, of which `check_capability_gap` reads `data.get("can_answer", True)`
(modelled as the `can_answer` field, defaulting applied). -/
structure GapData where
  can_answer : Bool := true
deriving DecidableEq, Repr

/-- Environment of one `check_capability_gap` invocation: the gap-analysis
model call combined with the `json.loads` of its output (`.error` models
either step raising, which the source swallows). -/
structure GapEnv where
  response : Except Unit GapData

/-- `KnowledgeBrain.check_capability_gap` (brain.py lines 243-273), paired
with a flag recording whether the gap-analysis model call was invoked.
`pmPresent` models `self.pm is not None`. -/
def checkCapabilityGap (pmPresent : Bool) (env : GapEnv)
    (_question answer : String) : Bool × Option GapData :=
  if !pmPresent then (false, none)
  else if !signalsInsufficientCapability answer then (false, none)
  else
    match env.response with
    | .error _ => (true, none)
    | .ok data => if !data.can_answer then (true, some data) else (true, none)

/-! ### `knowledge/prompt_manager.py` — `PromptManager.update` -/

/-- Result of one `subprocess.run` git invocation. -/
structure GitResult where
  returncode : Int
  stdout : String := ""
  stderr : String := ""

/-- The four git invocations `PromptManager.update` performs, in order:
`git add`, `git commit`, `git rev-parse --short HEAD`, `git push`. -/
structure GitEnv where
  add : GitResult
  commit : GitResult
  revParse : GitResult
  push : GitResult

/-- `PromptManager.update` (prompt_manager.py lines 94-151).
`userDirConfigured` models `self.user_dir is not None`.  A nonzero
returncode from `git add` or `git commit` raises `RuntimeError`
(`.error`); the short hash read back by `rev-parse` is returned after the
push attempt, whose failure is only logged (lines 140-148). -/
def PromptManager.update (env : GitEnv) (userDirConfigured : Bool)
    (_name _newText : String) : Except String String :=
  if !userDirConfigured then
    .error "Cannot update prompts: PROMPTS_USER_DIR not configured."
  else if env.add.returncode != 0 then
    .error ("git add failed: " ++ pyStrip env.add.stderr)
  else if env.commit.returncode != 0 then
    .error ("git commit failed: " ++ pyStrip env.commit.stderr)
  else
    .ok (pyStrip env.revParse.stdout)

/-! ### Concrete fixtures

Concrete inputs used by the counterexample and witness theorems below; the
model outputs and store contents mirror the fixtures of the repository
test-suite (`tests/test_brain.py`, `tests/test_store.py`). -/

/-- The decoded model output of the default `test_brain.py` fixture: a valid,
well-formed analysis of a plain note. -/
def noteLlmDict : LlmDict :=
  { item_type := some "note"
    tags := some ["test"]
    summary := some "A test note"
    response := some "Got it! Saved as a note."
    overview_update := none }

/-- Capture environment in which the model call succeeds with
`noteLlmDict` and no URL content is fetched. -/
def captureEnvNote : CaptureEnv :=
  { fetch := fun _ => none
    llm := fun _ => .dict noteLlmDict }

/-- Capture environment in which the model call raises. -/
def captureEnvRaised : CaptureEnv :=
  { fetch := fun _ => none
    llm := fun _ => .raised }

/-- Capture environment in which every URL fetch succeeds and the model
call raises. -/
def captureEnvFetchOkLlmRaised : CaptureEnv :=
  { fetch := fun _ => some "Fetched page text"
    llm := fun _ => .raised }

/-- Store row containing the terms `grant` and `funding`
(item A of the OR-semantics test of `test_store.py`). -/
def itemGrantFunding : KnowledgeItem :=
  { content := "grant funding deadline"
    item_type := .note
    summary := "NSW grant"
    created_at := 1
    item_id := some 1 }

/-- Store row containing none of the query terms (item B of the
OR-semantics test). -/
def itemUnrelated : KnowledgeItem :=
  { content := "totally unrelated content"
    item_type := .note
    summary := "nothing"
    created_at := 2
    item_id := some 2 }

/-- Store row containing `grants` and `March` (the punctuation-tolerance
test of `test_store.py`). -/
def itemMarchGrants : KnowledgeItem :=
  { content := "NSW Create grants open March 2025"
    item_type := .note
    summary := "grants"
    created_at := 1
    item_id := some 1 }

/-! ### Theorems -/

/-- C1.  Counter to the claim, when the analyze call succeeds and its output
parses as well-formed structured output (here the default fixture of
`test_brain.py`, which `fromLlmJson` accepts), `capture` does not return a
`(reply, capability flag)` pair at all: after persisting the parsed item it
evaluates `analysis.extracted_items`, an attribute the `AnalysisResult`
dataclass never defines, and the resulting `AttributeError` propagates. -/
theorem capture_parsed_analysis_raises_attribute_error :
    fromLlmJson noteLlmDict
      = .ok { item_type := .note
              tags := ["test"]
              summary := "A test note"
              response := "Got it! Saved as a note."
              overview_update := none } ∧
    capture captureEnvNote 0 "test message" []
      = (.attributeError "extracted_items",
         [{ content := "test message"
            item_type := .note
            tags := ["test"]
            summary := "A test note"
            source_url := none
            url_content := none
            created_at := 0
            item_id := some 1 }]) :=
  ⟨rfl, rfl⟩

/-- C3.  Counter to the claim, `search` uses AND-of-terms matching: the raw
query string is handed to FTS5 `MATCH`, whose whitespace-separated bare
words denote an implicit conjunction.  On the store of the repository test
`test_search_uses_or_matching` — item A indexed with the terms `funding` and
`deadline` (and `grant`, not `grants`), item B with no query term — the
query `grants funding deadline` returns nothing at all, rather than
returning A. -/
theorem search_and_semantics_counterexample :
    search [itemGrantFunding, itemUnrelated] "grants funding deadline" 10
      = [] ∧
    ftsMatch ["funding"] itemGrantFunding = true ∧
    ftsMatch ["deadline"] itemGrantFunding = true ∧
    search [itemGrantFunding, itemUnrelated] "funding" 10
      = [itemGrantFunding] :=
  ⟨rfl, rfl, rfl, rfl⟩

/-- C4.  Counter to the claim, a query with a trailing question mark is an
FTS5 query syntax error; `search` catches the resulting
`sqlite3.OperationalError` and returns the empty list, losing the
otherwise-matching item of the repository test
`test_search_strips_punctuation_from_query` (which the punctuation-free
query `March` does find). -/
theorem search_punctuation_counterexample :
    search [itemMarchGrants] "what grants are open in March?" 10 = [] ∧
    parseFtsQuery "what grants are open in March?" = .error () ∧
    search [itemMarchGrants] "March" 10 = [itemMarchGrants] :=
  ⟨rfl, rfl, rfl⟩

/-- C2.  Whenever the analyze call raises or its output fails to parse as
well-formed structured output, `capture` returns the literal confirmation
`Saved to knowledge base.` (and a false capability flag) without raising,
and the store gains exactly one new item: a `note` with empty tags, empty
summary and the original text as content. -/
theorem capture_fallback_spec (env : CaptureEnv) (now : Nat) (text : String)
    (rows : List KnowledgeItem) (h : captureAnalysis env text = .error ()) :
    capture env now text rows
      = (.reply "Saved to knowledge base." false,
         rows ++ [{ content := text
                    item_type := .note
                    tags := []
                    summary := ""
                    source_url := (extractUrls text).head?
                    url_content := none
                    created_at := now
                    item_id := some (rows.length + 1) }]) := by
  simp [capture, saveItem, h]

/-- C2, witness: a raising model backend on the input `hello`. -/
theorem capture_fallback_spec_witness :
    captureAnalysis captureEnvRaised "hello" = .error () ∧
    capture captureEnvRaised 7 "hello" []
      = (.reply "Saved to knowledge base." false,
         [{ content := "hello"
            item_type := .note
            tags := []
            summary := ""
            source_url := none
            url_content := none
            created_at := 7
            item_id := some 1 }]) := by
  refine ⟨rfl, ?_⟩
  have h := capture_fallback_spec captureEnvRaised 7 "hello" [] rfl
  exact h.trans (by decide)

/-- C10.  On the fallback path the saved note carries the first URL detected
in the message as `source_url` (`none` when the message has no URL), while
its `url_content` field is always `none` — `_fallback_save` never passes the
fetched content along, whatever the fetch returned. -/
theorem capture_fallback_url_fields (env : CaptureEnv) (now : Nat)
    (text : String) (rows : List KnowledgeItem)
    (h : captureAnalysis env text = .error ()) :
    (capture env now text rows).2
      = rows ++ [{ content := text
                   item_type := .note
                   tags := []
                   summary := ""
                   source_url := (extractUrls text).head?
                   url_content := none
                   created_at := now
                   item_id := some (rows.length + 1) }] := by
  simp [capture, saveItem, h]

/-- C10, witness: the fetch of the single URL in the message succeeds, the
model call then raises; the saved note records the URL but no URL content. -/
theorem capture_fallback_url_fields_witness :
    captureAnalysis captureEnvFetchOkLlmRaised
        "see http://example.com/a please" = .error () ∧
    captureEnvFetchOkLlmRaised.fetch "http://example.com/a"
        = some "Fetched page text" ∧
    extractUrls "see http://example.com/a please" = ["http://example.com/a"] ∧
    (capture captureEnvFetchOkLlmRaised 5 "see http://example.com/a please" []).2
      = [{ content := "see http://example.com/a please"
           item_type := .note
           tags := []
           summary := ""
           source_url := some "http://example.com/a"
           url_content := none
           created_at := 5
           item_id := some 1 }] := by
  refine ⟨rfl, rfl, by decide, ?_⟩
  have h := capture_fallback_url_fields captureEnvFetchOkLlmRaised 5
    "see http://example.com/a please" [] rfl
  exact h.trans (by decide)

/-- C9.  Serialising a `KnowledgeItem` with `to_dict` and deserialising the
result with `from_dict` restores the item in every field, including
`item_type` and `created_at`. -/
theorem knowledgeItem_to_dict_from_dict_roundtrip (i : KnowledgeItem) :
    KnowledgeItem.from_dict (KnowledgeItem.to_dict i) = some i := by
  cases i with
  | mk content item_type tags summary source_url url_content created_at item_id =>
    cases item_type <;> rfl

/-- C7.  The cheap pre-filter of `check_capability_gap`: an answer matching
none of the fixed insufficiency phrases yields no gap and never reaches the
gap-analysis model call, whatever that call would return; an answer matching
at least one phrase (with a prompt manager configured) does invoke it. -/
theorem checkCapabilityGap_cheap_filter (pm : Bool) (env : GapEnv)
    (q a : String) :
    (signalsInsufficientCapability a = false →
      checkCapabilityGap pm env q a = (false, none)) ∧
    (pm = true → signalsInsufficientCapability a = true →
      (checkCapabilityGap pm env q a).1 = true) := by
  constructor
  · intro hs
    cases pm <;> simp [checkCapabilityGap, hs]
  · intro hpm hs
    subst hpm
    rcases env with ⟨res⟩
    cases res with
    | error e => simp [checkCapabilityGap, hs]
    | ok data => cases hd : data.can_answer <;> simp [checkCapabilityGap, hs, hd]

/-- C7, witness: the two answers of the spec example; the phrase-free answer
short-circuits to no gap even against a backend that would report one, while
the phrase `i don` + apostrophe + `t have` triggers the model call. -/
theorem checkCapabilityGap_cheap_filter_witness :
    signalsInsufficientCapability
        ("Here" ++ apoStr ++ "s your answer: the sky is blue") = false ∧
    checkCapabilityGap true { response := .ok { can_answer := false } } "q"
        ("Here" ++ apoStr ++ "s your answer: the sky is blue")
      = (false, none) ∧
    signalsInsufficientCapability
        ("I don" ++ apoStr ++ "t have that information") = true ∧
    (checkCapabilityGap true { response := .ok { can_answer := false } } "q"
        ("I don" ++ apoStr ++ "t have that information")).1 = true := by
  refine ⟨by decide, ?_, by decide, ?_⟩
  · exact (checkCapabilityGap_cheap_filter true
      { response := .ok { can_answer := false } } "q"
      ("Here" ++ apoStr ++ "s your answer: the sky is blue")).1 (by decide)
  · exact (checkCapabilityGap_cheap_filter true
      { response := .ok { can_answer := false } } "q"
      ("I don" ++ apoStr ++ "t have that information")).2 rfl (by decide)

/-- C6.  `PromptManager.update` with a configured user tier: a failing
`git add` (staging) or `git commit` raises `RuntimeError`, whereas when both
succeed and only `git push` fails the update does not raise and returns the
stripped short commit identifier read back by `git rev-parse`. -/
theorem promptManager_update_failure_policy (env : GitEnv)
    (name newText : String) :
    ((env.add.returncode ≠ 0 ∨ env.commit.returncode ≠ 0) →
      ∃ e, PromptManager.update env true name newText = .error e) ∧
    (env.add.returncode = 0 → env.commit.returncode = 0 →
      env.push.returncode ≠ 0 →
      PromptManager.update env true name newText
        = .ok (pyStrip env.revParse.stdout)) := by
  constructor
  · rintro (hadd | hcommit)
    · exact ⟨"git add failed: " ++ pyStrip env.add.stderr,
        by simp [PromptManager.update, hadd]⟩
    · by_cases hadd : env.add.returncode = 0
      · exact ⟨"git commit failed: " ++ pyStrip env.commit.stderr,
          by simp [PromptManager.update, hadd, hcommit]⟩
      · exact ⟨"git add failed: " ++ pyStrip env.add.stderr,
          by simp [PromptManager.update, hadd]⟩
  · intro hadd hcommit _hpush
    simp [PromptManager.update, hadd, hcommit]

/-- C6, witness: a failing `git add` raises; a failing `git push` after a
clean `git add` and `git commit` still returns the short hash `abc1234`. -/
theorem promptManager_update_failure_policy_witness :
    (∃ e, PromptManager.update
        { add := { returncode := 1, stderr := "index locked" }
          commit := { returncode := 0 }
          revParse := { returncode := 0, stdout := "abc1234\n" }
          push := { returncode := 0 } } true "query" "new text" = .error e) ∧
    PromptManager.update
        { add := { returncode := 0 }
          commit := { returncode := 0 }
          revParse := { returncode := 0, stdout := "abc1234\n" }
          push := { returncode := 1, stderr := "no remote" } }
        true "query" "new text" = .ok "abc1234" := by
  constructor
  · exact (promptManager_update_failure_policy
      { add := { returncode := 1, stderr := "index locked" }
        commit := { returncode := 0 }
        revParse := { returncode := 0, stdout := "abc1234\n" }
        push := { returncode := 0 } } "query" "new text").1
      (Or.inl (by decide))
  · have h := (promptManager_update_failure_policy
      { add := { returncode := 0 }
        commit := { returncode := 0 }
        revParse := { returncode := 0, stdout := "abc1234\n" }
        push := { returncode := 1, stderr := "no remote" } }
      "query" "new text").2 rfl rfl (by decide)
    exact h.trans (congrArg Except.ok (by decide))

/-- Every element emitted by `dedupAux` comes from the input and was not
among the already-seen keys. -/
theorem mem_dedupAux (x : String) (l seen : List String)
    (h : x ∈ dedupAux seen l) : x ∈ l ∧ x ∉ seen := by
  induction l generalizing seen with
  | nil => simp [dedupAux] at h
  | cons y ys ih =>
    by_cases hy : y ∈ seen
    · rw [dedupAux, if_pos hy] at h
      obtain ⟨h1, h2⟩ := ih seen h
      exact ⟨List.mem_cons_of_mem _ h1, h2⟩
    · rw [dedupAux, if_neg hy] at h
      rcases List.mem_cons.mp h with h1 | h1
      · subst h1
        exact ⟨List.mem_cons_self _ _, hy⟩
      · obtain ⟨h2, h3⟩ := ih (y :: seen) h1
        refine ⟨List.mem_cons_of_mem _ h2, fun hx => h3 ?_⟩
        exact List.mem_cons_of_mem _ hx

/-- `dedupAux` emits no duplicates. -/
theorem dedupAux_nodup (l : List String) :
    ∀ seen : List String, (dedupAux seen l).Nodup := by
  induction l with
  | nil => intro seen; simp [dedupAux]
  | cons y ys ih =>
    intro seen
    by_cases hy : y ∈ seen
    · rw [dedupAux, if_pos hy]; exact ih seen
    · rw [dedupAux, if_neg hy]
      refine List.nodup_cons.mpr ⟨?_, ih (y :: seen)⟩
      intro hmem
      exact (mem_dedupAux y ys (y :: seen) hmem).2 (List.mem_cons_self y seen)

/-- `dedupAux` preserves the first-seen order: its output is a sublist of
its input. -/
theorem dedupAux_sublist (l : List String) :
    ∀ seen : List String, List.Sublist (dedupAux seen l) l := by
  induction l with
  | nil => intro seen; simp [dedupAux]
  | cons y ys ih =>
    intro seen
    by_cases hy : y ∈ seen
    · rw [dedupAux, if_pos hy]; exact (ih seen).cons y
    · rw [dedupAux, if_neg hy]; exact (ih (y :: seen)).cons₂ y

/-- C5.  `_save_extracted_items` persists exactly the entries with non-empty
summary, each as a `reference` item carrying the parent `source_url` and the
tags `dedupFirst (parent ++ own)` — and `dedupFirst` yields each tag once
(`Nodup`) in first-seen order (a sublist of parent tags followed by own
tags, so parent tags come first); on the spec example the merged tags are
exactly `grants, nsw, quick-response`. -/
theorem saveExtractedItems_spec (extracted : List ExtractedRaw)
    (url : Option String) (ptags : List String) (now : Nat) :
    saveExtractedItems extracted url ptags now
      = (extracted.filter (fun raw => !(raw.summary == ""))).map
          (fun raw =>
            { content := raw.summary
              item_type := .reference
              tags := dedupFirst (ptags ++ raw.tags)
              summary := raw.summary
              source_url := url
              url_content := none
              created_at := now
              item_id := none }) ∧
    (∀ l : List String,
      (dedupFirst l).Nodup ∧ List.Sublist (dedupFirst l) l) ∧
    dedupFirst (["grants", "nsw"] ++ ["quick-response"])
      = ["grants", "nsw", "quick-response"] := by
  refine ⟨?_, fun l => ⟨dedupAux_nodup l [], dedupAux_sublist l []⟩, by decide⟩
  induction extracted with
  | nil => rfl
  | cons raw rest ih =>
    by_cases hs : raw.summary = ""
    · simp [saveExtractedItems, hs, ih]
    · simp [saveExtractedItems, hs, ih]

/-! ### C8 machinery: `ORDER BY created_at DESC` with unspecified tie order -/

/-- A strictly newest-first list is the unique weakly newest-first
arrangement of its rows: a permutation of it that is weakly sorted is it.
(The strict hypothesis makes all `created_at` keys distinct, which forces
the weak order.) -/
theorem eq_of_perm_of_sorted_strict (l₁ l₂ : List KnowledgeItem)
    (hp : l₁.Perm l₂) (h₁ : l₁.Pairwise strictNewestFirst)
    (h₂ : l₂.Pairwise newestFirst) : l₁ = l₂ := by
  induction l₁ generalizing l₂ with
  | nil => exact (hp.symm.eq_nil).symm
  | cons x xs ih =>
    cases l₂ with
    | nil =>
      have := hp.length_eq
      simp at this
    | cons y ys =>
      obtain ⟨hx_xs, hxs⟩ := List.pairwise_cons.mp h₁
      obtain ⟨hy_ys, hys⟩ := List.pairwise_cons.mp h₂
      have hxy : x = y := by
        by_contra hne
        have hxmem : x ∈ y :: ys := hp.mem_iff.mp (List.mem_cons_self x xs)
        have hymem : y ∈ x :: xs := hp.mem_iff.mpr (List.mem_cons_self y ys)
        have hx' : x ∈ ys := by
          rcases List.mem_cons.mp hxmem with h | h
          · exact absurd h hne
          · exact h
        have hy' : y ∈ xs := by
          rcases List.mem_cons.mp hymem with h | h
          · exact absurd h.symm hne
          · exact h
        have h1 : x.created_at ≤ y.created_at := hy_ys x hx'
        have h2 : y.created_at < x.created_at := hx_xs y hy'
        exact Nat.lt_irrefl _ (Nat.lt_of_lt_of_le h2 h1)
      subst hxy
      rw [ih ys hp.cons_inv hxs hys]

/-- Row inserted first (rowid 1), at instant 5. -/
def itemTieA : KnowledgeItem :=
  { content := "tie first", item_type := .note, created_at := 5,
    item_id := some 1 }

/-- Row inserted second (rowid 2), also at instant 5: a `created_at` tie. -/
def itemTieB : KnowledgeItem :=
  { content := "tie second", item_type := .note, created_at := 5,
    item_id := some 2 }

/-- C8, counterexample to the tie conjunct.  Two rows inserted in rowid
order A then B but sharing one `created_at`: the output listing B before A
is among the results `ORDER BY created_at DESC` may produce, and it differs
from the insertion order — the query has no secondary sort key, so the
relative order of `created_at` ties is not the insertion order by any
guarantee of the program. -/
theorem recent_tie_order_counterexample :
    itemTieA.created_at = itemTieB.created_at ∧
    recentResult 2 [itemTieA, itemTieB] [itemTieB, itemTieA] ∧
    [itemTieB, itemTieA] ≠ [itemTieA, itemTieB] :=
  ⟨rfl, ⟨[itemTieB, itemTieA], by decide, by decide, rfl⟩, by decide⟩

/-- C8 (amended).  Every result `recent limit` may return has at most
`limit` rows and is ordered newest `created_at` first (the relative order
of `created_at` ties being unspecified); when the store admits a strictly
newest-first arrangement — all timestamps distinct, e.g. rows inserted at
t1 < t2 < t3 — the result is uniquely determined: the first `limit` rows of
that arrangement, newest first. -/
theorem recent_spec (rows : List KnowledgeItem) (limit : Nat)
    (out : List KnowledgeItem) (h : recentResult limit rows out) :
    out.length ≤ limit ∧
    out.Pairwise newestFirst ∧
    (∀ sorted : List KnowledgeItem, rows.Perm sorted →
      sorted.Pairwise strictNewestFirst → out = sorted.take limit) := by
  obtain ⟨s, hperm, hsorted, rfl⟩ := h
  refine ⟨List.length_take_le _ _,
    List.Pairwise.sublist (List.take_sublist _ _) hsorted, ?_⟩
  intro sorted hperm' hstrict
  rw [eq_of_perm_of_sorted_strict sorted s (hperm'.symm.trans hperm)
    hstrict hsorted]

/-- Row inserted first, at instant 1 (fixture of
`test_recent_returns_newest_first`). -/
def itemT1 : KnowledgeItem :=
  { content := "first", item_type := .note, created_at := 1, item_id := some 1 }

/-- Row inserted second, at instant 2. -/
def itemT2 : KnowledgeItem :=
  { content := "second", item_type := .note, created_at := 2, item_id := some 2 }

/-- Row inserted third, at instant 3. -/
def itemT3 : KnowledgeItem :=
  { content := "third", item_type := .note, created_at := 3, item_id := some 3 }

/-- C8, witness: three rows inserted at distinct increasing instants
t1 < t2 < t3.  The newest-first arrangement is an admissible result of
`recent 3`, it satisfies the amended bounds, and — by the uniqueness
conjunct, since all timestamps are distinct — it is the only admissible
result: t3, t2, t1. -/
theorem recent_spec_witness :
    recentResult 3 [itemT1, itemT2, itemT3] [itemT3, itemT2, itemT1] ∧
    [itemT3, itemT2, itemT1].length ≤ 3 ∧
    List.Pairwise newestFirst [itemT3, itemT2, itemT1] ∧
    (∀ out : List KnowledgeItem,
      recentResult 3 [itemT1, itemT2, itemT3] out →
        out = [itemT3, itemT2, itemT1]) := by
  have hrr : recentResult 3 [itemT1, itemT2, itemT3]
      [itemT3, itemT2, itemT1] :=
    ⟨[itemT3, itemT2, itemT1], by decide, by decide, rfl⟩
  refine ⟨hrr, (recent_spec _ 3 _ hrr).1, (recent_spec _ 3 _ hrr).2.1, ?_⟩
  intro out hout
  have h := (recent_spec [itemT1, itemT2, itemT3] 3 out hout).2.2
    [itemT3, itemT2, itemT1] (by decide) (by decide)
  exact h.trans (by decide)

end GoawaygeekBot
